import Mathlib

/-!
Shallow embedding of the real-time event distribution subsystem of
taskflow-ai-assistant: the `TaskObservable` class (observer registry,
dispatch, WebSocket bridge, offline event queue, presence handling).

The TypeScript class is single-threaded per event-loop turn; each public
method and each socket handler is embedded as a pure state transformer
`ObsState → ObsState × Effects`, where `Effects` records the externally
visible actions of one call: observer `update` invocations (deliveries),
`socket.emit` calls (sends), and error-sink (`onError`) invocations.
-/

namespace TaskFlow

/-- Result of one subscriber callback (`observer.update`): normal return or a
raised/rejected error.  Mirrors `void | Promise<void>` where a rejection
carries an error message. -/
inductive Outcome
  | ok
  | err (msg : String)
  deriving DecidableEq

/-- A task record.  The source `Task` interface has many fields; the observer
code reads only `id`, so the remaining fields are collapsed into one opaque
`rest` component (carried around but never inspected by the core). -/
structure Task where
  id : String
  rest : String
  deriving DecidableEq

/-- A JavaScript `Date` value.  `fromTick t` is `new Date()` at logical clock
value `t`; `parsedIso s` is `new Date(isoString)`; `invalid` is the Invalid
Date produced by `new Date(undefined)`. -/
inductive DateVal
  | fromTick (tick : Nat)
  | parsedIso (s : String)
  | invalid
  deriving DecidableEq

/-- A `UserPresence` record (source `types` file). -/
structure UserPresence where
  userId : String
  isOnline : Bool
  currentTaskId : Option String
  lastSeen : DateVal
  deriving DecidableEq

/-- Event payload (`data` / wire `payload`).  Locally emitted events carry a
`Task` (create/update) or a `\x7b taskId \x7d` object (delete); inbound events
carry an opaque wire value; presence messages carry a `UserPresence`. -/
inductive Payload
  | ofTask (t : Task)
  | taskRef (taskId : String)
  | ofPresence (p : UserPresence)
  | wire (raw : String)
  deriving DecidableEq

/-- The `TaskEvent` record.  In the source its fields are typed, but
`handleTaskEvent` fills them by unchecked casts from an untyped inbound
record, so at runtime any field except `timestamp` may be `undefined`;
`Option` models that. -/
structure TaskEvent where
  type : Option String
  taskId : Option String
  userId : Option String
  timestamp : DateVal
  data : Option Payload
  deriving DecidableEq

/-- The `timestamp` field of an inbound raw record: absent (`undefined`),
an ISO string (the wire format), or an actual `Date` object (the record
built by `handlePresenceUpdate`). -/
inductive TsField
  | absent
  | iso (s : String)
  | dateObj (d : DateVal)
  deriving DecidableEq

/-- `new Date(x)` on the value of a raw `timestamp` field: `undefined` gives
an Invalid Date (it does not throw), a string is parsed, a `Date` is copied. -/
def newDate : TsField → DateVal
  | TsField.absent => DateVal.invalid
  | TsField.iso s => DateVal.parsedIso s
  | TsField.dateObj d => d

/-- An object-shaped inbound record, as read by `handleTaskEvent`: the five
properties it accesses, each possibly `undefined`.  A `null`/`undefined`
message body (property access throws) is modelled as `Option RawMsg = none`
at the call site. -/
structure RawMsg where
  type : Option String
  taskId : Option String
  userId : Option String
  timestamp : TsField
  payload : Option Payload
  deriving DecidableEq

/-- A registered observer.  `tag` stands for the object's reference identity
(used by `removeObserver`'s `===` comparison); `update` is the callback. -/
structure Observer where
  tag : String
  update : TaskEvent → Outcome

/-- State of one `TaskObservable` instance: the `observers` map (a JS `Map`,
i.e. an insertion-ordered association list keyed by observer id), whether a
socket was supplied, the owning user id, the offline `eventQueue`, and the
`isConnected` flag. -/
structure ObsState where
  observers : List (String × Observer)
  hasSocket : Bool
  userId : String
  eventQueue : List TaskEvent
  isConnected : Bool

/-- A message sent on the socket: `socket.emit("task:event", …)` or
`socket.emit("user:presence", …)`.  Wire serialization of the event fields is
kept abstract (the record sent is determined by these fields). -/
inductive SendMsg
  | taskEvent (type : Option String) (taskId : Option String)
      (userId : Option String) (timestamp : DateVal) (payload : Option Payload)
  | presenceMsg (p : UserPresence)
  deriving DecidableEq

/-- One observer invocation: the registry key of the entry invoked, the event
passed to its `update`, and the callback's outcome. -/
structure Delivery where
  key : String
  event : TaskEvent
  outcome : Outcome
  deriving DecidableEq

/-- Externally visible actions of one call into the observable. -/
structure Effects where
  deliveries : List Delivery
  sends : List SendMsg
  errors : List String
  deriving DecidableEq

def Effects.empty : Effects := ⟨[], [], []⟩

def Effects.app (a b : Effects) : Effects :=
  ⟨a.deliveries ++ b.deliveries, a.sends ++ b.sends, a.errors ++ b.errors⟩

/-- `Map.set k v`: replace in place if the key exists, else append (JS `Map`
preserves insertion order and keeps the original position on overwrite). -/
def mapSet (m : List (String × Observer)) (k : String) (v : Observer) :
    List (String × Observer) :=
  match m with
  | [] => [(k, v)]
  | (k0, v0) :: rest =>
      if k0 = k then (k, v) :: rest else (k0, v0) :: mapSet rest k v

/-- `addObserver(observer, id)`: `this.observers.set(id, observer)`. -/
def addObserver (s : ObsState) (o : Observer) (id : String) : ObsState :=
  { s with observers := mapSet s.observers id o }

/-- Helper for `removeObserver`: delete the first entry whose stored observer
is reference-equal (`===`, modelled by `tag`) to the argument. -/
def removeFirst (m : List (String × Observer)) (tag : String) :
    List (String × Observer) :=
  match m with
  | [] => []
  | (k0, v0) :: rest =>
      if v0.tag = tag then rest else (k0, v0) :: removeFirst rest tag

/-- `removeObserver(observer)`: scan the map entries and delete the first one
holding the same observer object, then stop. -/
def removeObserver (s : ObsState) (tag : String) : ObsState :=
  { s with observers := removeFirst s.observers tag }

/-- `notify(data)`: build one `update` promise per current observer and
`await Promise.allSettled(...)`.  `allSettled` resolves whatever the
individual callbacks do, so every observer is invoked and the surrounding
`try/catch` (which would call `handleError`) can never fire: `notify`
reports nothing to the error sink and the state is unchanged. -/
def notify (s : ObsState) (e : TaskEvent) : Effects :=
  { deliveries := s.observers.map (fun p => ⟨p.1, e, p.2.update e⟩),
    sends := [], errors := [] }

/-- `broadcastEvent(event)`: local `notify` first; then, if a socket exists
and the connection is up, `socket.emit("task:event", …)`; otherwise push the
event onto `eventQueue`. -/
def broadcastEvent (s : ObsState) (e : TaskEvent) : ObsState × Effects :=
  let eff := notify s e
  if s.hasSocket && s.isConnected then
    (s, Effects.app eff
      ⟨[], [SendMsg.taskEvent e.type e.taskId e.userId e.timestamp e.data], []⟩)
  else
    ({ s with eventQueue := s.eventQueue ++ [e] }, eff)

/-- `emitTaskCreated(task)`: build a `TASK_CREATED` event stamped `new Date()`
(at logical tick `now`) and broadcast it. -/
def emitTaskCreated (s : ObsState) (t : Task) (now : Nat) : ObsState × Effects :=
  broadcastEvent s
    ⟨some "TASK_CREATED", some t.id, some s.userId,
      DateVal.fromTick now, some (Payload.ofTask t)⟩

/-- `emitTaskUpdated(task)`. -/
def emitTaskUpdated (s : ObsState) (t : Task) (now : Nat) : ObsState × Effects :=
  broadcastEvent s
    ⟨some "TASK_UPDATED", some t.id, some s.userId,
      DateVal.fromTick now, some (Payload.ofTask t)⟩

/-- `emitTaskDeleted(taskId)`: the payload is the object `\x7b taskId \x7d`. -/
def emitTaskDeleted (s : ObsState) (taskId : String) (now : Nat) :
    ObsState × Effects :=
  broadcastEvent s
    ⟨some "TASK_DELETED", some taskId, some s.userId,
      DateVal.fromTick now, some (Payload.taskRef taskId)⟩

/-- The `while (queue.length > 0 && this.isConnected)` loop body of
`processEventQueue`: shift the head and `notify` it.  `isConnected` is
re-read each iteration in the source; nothing in the synchronous drain
changes it, so it is the fixed `conn` here.  Returns the remaining queue and
the accumulated effects. -/
def processLoop (s : ObsState) : List TaskEvent → List TaskEvent × Effects
  | [] => ([], Effects.empty)
  | e :: rest =>
      if s.isConnected then
        let eff := notify s e
        let r := processLoop s rest
        (r.1, Effects.app eff r.2)
      else (e :: rest, Effects.empty)

/-- `processEventQueue()`. -/
def processEventQueue (s : ObsState) : ObsState × Effects :=
  let r := processLoop s s.eventQueue
  ({ s with eventQueue := r.1 }, r.2)

/-- The `socket.on("connect", …)` handler: set `isConnected = true`, then
`processEventQueue()`. -/
def onConnect (s : ObsState) : ObsState × Effects :=
  processEventQueue { s with isConnected := true }

/-- The `socket.on("disconnect", …)` handler: set `isConnected = false`.
Nothing else happens: no event is emitted and no error is reported. -/
def onDisconnect (s : ObsState) : ObsState × Effects :=
  ({ s with isConnected := false }, Effects.empty)

/-- The event `handleTaskEvent` constructs from an object-shaped inbound
record: each field is the raw (possibly `undefined`) property, with
`new Date(data.timestamp)` for the timestamp.  No validation is performed. -/
def rawEvent (m : RawMsg) : TaskEvent :=
  ⟨m.type, m.taskId, m.userId, newDate m.timestamp, m.payload⟩

/-- `handleTaskEvent(data)`: a `null`/`undefined` body makes the property
accesses throw, which the `catch` turns into a `handleError` call (state
unchanged, nothing delivered).  An object body — malformed or not — is cast
field-by-field into a `TaskEvent`; if connected the event is notified to the
observers, otherwise it is queued. -/
def handleTaskEvent (s : ObsState) (msg : Option RawMsg) : ObsState × Effects :=
  match msg with
  | none => (s, ⟨[], [], ["Task event handling failed"]⟩)
  | some m =>
      let e := rawEvent m
      if s.isConnected then (s, notify s e)
      else ({ s with eventQueue := s.eventQueue ++ [e] }, Effects.empty)

/-- `handlePresenceUpdate(data)`: build a `USER_PRESENCE_UPDATED` record and
pass it to `handleTaskEvent`.  The record built in the source stores the
presence value under the key `data`, but `handleTaskEvent` reads the key
`payload`, which is absent — so the delivered event's payload is
`undefined` (`none` here). -/
def handlePresenceUpdate (s : ObsState) (p : UserPresence) (now : Nat) :
    ObsState × Effects :=
  handleTaskEvent s (some
    { type := some "USER_PRESENCE_UPDATED",
      taskId := some (p.currentTaskId.getD ""),
      userId := some p.userId,
      timestamp := TsField.dateObj (DateVal.fromTick now),
      payload := none })

/-- `updatePresence(currentTaskId)`: if a socket exists and the connection is
up, `socket.emit("user:presence", …)` with a fresh presence record;
otherwise do nothing. -/
def updatePresence (s : ObsState) (currentTaskId : Option String) (now : Nat) :
    ObsState × Effects :=
  if s.hasSocket && s.isConnected then
    (s, ⟨[], [SendMsg.presenceMsg
      ⟨s.userId, true, currentTaskId, DateVal.fromTick now⟩], []⟩)
  else (s, Effects.empty)

/-- The `disconnect()` method: clear observers and queue, drop the flag. -/
def disconnectAll (s : ObsState) : ObsState :=
  { s with observers := [], eventQueue := [], isConnected := false }

/-- One external stimulus to the observable: a socket lifecycle event, an
inbound message, a local emit call, or registry maintenance. -/
inductive Action
  | sockConnect
  | sockDisconnect
  | inboundTask (m : Option RawMsg)
  | inboundPresence (p : UserPresence) (now : Nat)
  | emitCreated (t : Task) (now : Nat)
  | emitUpdated (t : Task) (now : Nat)
  | emitDeleted (taskId : String) (now : Nat)
  | addObs (o : Observer) (id : String)
  | removeObs (tag : String)
  | presencePing (currentTaskId : Option String) (now : Nat)
  | close

/-- Dispatch one action to the corresponding method / handler. -/
def step (s : ObsState) (a : Action) : ObsState × Effects :=
  match a with
  | Action.sockConnect => onConnect s
  | Action.sockDisconnect => onDisconnect s
  | Action.inboundTask m => handleTaskEvent s m
  | Action.inboundPresence p now => handlePresenceUpdate s p now
  | Action.emitCreated t now => emitTaskCreated s t now
  | Action.emitUpdated t now => emitTaskUpdated s t now
  | Action.emitDeleted tid now => emitTaskDeleted s tid now
  | Action.addObs o id => (addObserver s o id, Effects.empty)
  | Action.removeObs tag => (removeObserver s tag, Effects.empty)
  | Action.presencePing tid now => updatePresence s tid now
  | Action.close => (disconnectAll s, Effects.empty)

/-- Run a sequence of actions, concatenating effects. -/
def run (s : ObsState) : List Action → ObsState × Effects
  | [] => (s, Effects.empty)
  | a :: rest =>
      let r := step s a
      let r2 := run r.1 rest
      (r2.1, Effects.app r.2 r2.2)

/-- The events delivered to the subscriber registered under `key`: its
`update` invocations in order. -/
def receivedBy (key : String) (eff : Effects) : List TaskEvent :=
  (eff.deliveries.filter (fun d => d.key = key)).map (fun d => d.event)

/-- The event a local emit action constructs (given the instance's user id),
`none` for every other action. -/
def localEventOf (uid : String) : Action → Option TaskEvent
  | Action.emitCreated t now =>
      some ⟨some "TASK_CREATED", some t.id, some uid,
        DateVal.fromTick now, some (Payload.ofTask t)⟩
  | Action.emitUpdated t now =>
      some ⟨some "TASK_UPDATED", some t.id, some uid,
        DateVal.fromTick now, some (Payload.ofTask t)⟩
  | Action.emitDeleted tid now =>
      some ⟨some "TASK_DELETED", some tid, some uid,
        DateVal.fromTick now, some (Payload.taskRef tid)⟩
  | _ => none

/-- The sequence of events published by the local emit actions of a run. -/
def emittedEvents (uid : String) (as : List Action) : List TaskEvent :=
  as.filterMap (localEventOf uid)

/-- The wire record `broadcastEvent` emits for an event. -/
def wireOf (e : TaskEvent) : SendMsg :=
  SendMsg.taskEvent e.type e.taskId e.userId e.timestamp e.data

/-! ### Helper lemmas -/

lemma receivedBy_app (key : String) (a b : Effects) :
    receivedBy key (Effects.app a b) = receivedBy key a ++ receivedBy key b := by
  simp [receivedBy, Effects.app, List.filter_append]

lemma receivedBy_filter_none (l : List (String × Observer)) (key : String)
    (e : TaskEvent) (h : key ∉ l.map Prod.fst) :
    (l.map (fun p => Delivery.mk p.1 e (p.2.update e))).filter
      (fun d => d.key = key) = [] := by
  induction l with
  | nil => rfl
  | cons hd tl ih =>
      simp only [List.map_cons, List.mem_cons, not_or] at h
      simp only [List.map_cons, List.filter_cons]
      rw [if_neg (by simpa using Ne.symm h.1)]
      exact ih h.2

lemma received_list (l : List (String × Observer)) (e : TaskEvent) (key : String)
    (o : Observer) (hmem : (key, o) ∈ l) (hnodup : (l.map Prod.fst).Nodup) :
    ((l.map (fun p => Delivery.mk p.1 e (p.2.update e))).filter
      (fun d => d.key = key)).map (fun d => d.event) = [e] := by
  induction l with
  | nil => cases hmem
  | cons hd tl ih =>
      rcases List.mem_cons.mp hmem with heq | htl
      · have hhd : hd = (key, o) := heq.symm
        subst hhd
        simp only [List.map_cons, List.filter_cons]
        rw [if_pos (by simp)]
        have hkey : key ∉ tl.map Prod.fst := by
          simp only [List.map_cons, List.nodup_cons] at hnodup
          exact hnodup.1
        rw [receivedBy_filter_none tl key e hkey]
        simp
      · have hnd : (tl.map Prod.fst).Nodup := by
          simp only [List.map_cons, List.nodup_cons] at hnodup
          exact hnodup.2
        have hne : hd.1 ≠ key := by
          intro hk
          have hmemk : key ∈ tl.map Prod.fst := by
            have := List.mem_map_of_mem Prod.fst htl
            exact this
          simp only [List.map_cons, List.nodup_cons, hk] at hnodup
          exact hnodup.1 hmemk
        simp only [List.map_cons, List.filter_cons]
        rw [if_neg (by simpa using hne)]
        exact ih htl hnd

lemma receivedBy_notify (s : ObsState) (e : TaskEvent) (key : String)
    (o : Observer) (hmem : (key, o) ∈ s.observers)
    (hnodup : (s.observers.map Prod.fst).Nodup) :
    receivedBy key (notify s e) = [e] :=
  received_list s.observers e key o hmem hnodup

lemma step_emit (s : ObsState) (a : Action) (e : TaskEvent)
    (h : localEventOf s.userId a = some e) :
    step s a =
      (if s.hasSocket && s.isConnected then
        (s, Effects.app (notify s e) ⟨[], [wireOf e], []⟩)
      else
        ({ s with eventQueue := s.eventQueue ++ [e] }, notify s e)) := by
  cases a <;> simp only [localEventOf, Option.some.injEq, reduceCtorEq] at h <;>
    subst h <;>
    simp [step, emitTaskCreated, emitTaskUpdated, emitTaskDeleted,
      broadcastEvent, wireOf]

lemma step_userId (s : ObsState) (a : Action) : (step s a).1.userId = s.userId := by
  cases a <;>
    simp only [step, onConnect, onDisconnect, handleTaskEvent,
      handlePresenceUpdate, emitTaskCreated, emitTaskUpdated, emitTaskDeleted,
      broadcastEvent, processEventQueue, updatePresence, addObserver,
      removeObserver, disconnectAll] <;>
    first
      | rfl
      | (split <;> rfl)
      | (rename_i m; cases m <;> simp only [] <;> first | rfl | (split <;> rfl))

lemma processLoop_connected (s : ObsState) (hconn : s.isConnected = true)
    (q : List TaskEvent) :
    (processLoop s q).1 = [] ∧ (processLoop s q).2.sends = [] ∧
    (processLoop s q).2.errors = [] := by
  induction q with
  | nil => exact ⟨rfl, rfl, rfl⟩
  | cons e rest ih =>
      simp only [processLoop, hconn, if_true, Effects.app, notify]
      exact ⟨ih.1, by simp [ih.2.1], by simp [ih.2.2]⟩

lemma processLoop_received (s : ObsState) (hconn : s.isConnected = true)
    (key : String) (o : Observer) (hmem : (key, o) ∈ s.observers)
    (hnodup : (s.observers.map Prod.fst).Nodup) (q : List TaskEvent) :
    receivedBy key (processLoop s q).2 = q := by
  induction q with
  | nil => rfl
  | cons e rest ih =>
      simp only [processLoop, hconn, if_true]
      rw [receivedBy_app, receivedBy_notify s e key o hmem hnodup, ih]
      rfl

/-! ### Concrete fixtures used by witnesses and counterexamples -/

/-- An observer whose callback always succeeds. -/
def okObs : Observer := ⟨"okCb", fun _ => Outcome.ok⟩

/-- An observer whose callback always raises. -/
def failObs : Observer := ⟨"failCb", fun _ => Outcome.err "boom"⟩

/-- A small concrete instance state: two observers (one of which always
fails), a socket present, given connectivity and queue. -/
def baseState (conn : Bool) (q : List TaskEvent) : ObsState :=
  { observers := [("A", okObs), ("B", failObs)], hasSocket := true,
    userId := "user1", eventQueue := q, isConnected := conn }

/-- A concrete task value. -/
def taskW (n : Nat) : Task := ⟨String.append "task" (toString n), "fields"⟩

/-- The event `emitTaskCreated` builds for `taskW n` at tick `n`, for user
`user1`. -/
def evW (n : Nat) : TaskEvent :=
  ⟨some "TASK_CREATED", some (taskW n).id, some "user1",
    DateVal.fromTick n, some (Payload.ofTask (taskW n))⟩

/-- An object-shaped inbound message with every field absent (maximally
malformed while still being an object). -/
def badMsg : RawMsg := ⟨none, none, none, TsField.absent, none⟩

/-- A well-formed inbound message. -/
def goodMsg : RawMsg :=
  ⟨some "TASK_UPDATED", some "task9", some "user2",
    TsField.iso "2026-01-01T00:00:00.000Z", some (Payload.wire "body")⟩

/-! ### Claim C1 -/

/-- Claim C1, counterexample.  The claim says that on the transition to
Connected every backlogged event is sent outward over the transport.  At a
concrete state whose backlog holds one event, the connect transition drains
the backlog (it becomes empty) yet performs zero socket sends: the buffered
event is never sent outward, refuting the claim. -/
theorem connect_drain_no_outward_send_cex :
    (baseState false [evW 1]).eventQueue ≠ [] ∧
    (step (baseState false [evW 1]) Action.sockConnect).2.sends = [] ∧
    (step (baseState false [evW 1]) Action.sockConnect).1.eventQueue = [] := by
  refine ⟨by decide, by decide, by decide⟩

/-- Claim C1 as amended: on the transition to Connected the backlog is
drained in FIFO order, each entry being delivered to the local observers via
`notify` (not sent over the transport — no socket send happens), and the
backlog is empty afterwards. -/
theorem connect_drains_backlog_fifo_locally (s : ObsState) (key : String)
    (o : Observer) (hmem : (key, o) ∈ s.observers)
    (hnodup : (s.observers.map Prod.fst).Nodup) :
    (step s Action.sockConnect).1.eventQueue = [] ∧
    (step s Action.sockConnect).2.sends = [] ∧
    receivedBy key (step s Action.sockConnect).2 = s.eventQueue := by
  have hconn : ({ s with isConnected := true } : ObsState).isConnected = true := rfl
  have h1 := processLoop_connected { s with isConnected := true } hconn s.eventQueue
  have h2 := processLoop_received { s with isConnected := true } hconn key o
    hmem hnodup s.eventQueue
  exact ⟨h1.1, h1.2.1, h2⟩

/-- Claim C1, witness for the amended theorem at a concrete state with a
two-event backlog. -/
theorem connect_drains_backlog_fifo_locally_witness :
    ("A", okObs) ∈ (baseState false [evW 1, evW 2]).observers ∧
    ((baseState false [evW 1, evW 2]).observers.map Prod.fst).Nodup ∧
    ((step (baseState false [evW 1, evW 2]) Action.sockConnect).1.eventQueue = [] ∧
     (step (baseState false [evW 1, evW 2]) Action.sockConnect).2.sends = [] ∧
     receivedBy "A" (step (baseState false [evW 1, evW 2]) Action.sockConnect).2
       = (baseState false [evW 1, evW 2]).eventQueue) :=
  ⟨List.Mem.head _, by decide,
    connect_drains_backlog_fifo_locally (baseState false [evW 1, evW 2]) "A"
      okObs (List.Mem.head _) (by decide)⟩

/-! ### Claim C2 -/

/-- Claim C2: for every sequence of local publishes performed while the
connection is Connected, every registered subscriber receives exactly the
published events, in publish order (hence, a fortiori, events with the
same `subjectId` arrive in publish order, each exactly once). -/
theorem connected_publish_exact_once_in_order (s : ObsState) (as : List Action)
    (key : String) (o : Observer) (hconn : s.isConnected = true)
    (hemits : ∀ a ∈ as, (localEventOf s.userId a).isSome)
    (hmem : (key, o) ∈ s.observers)
    (hnodup : (s.observers.map Prod.fst).Nodup) :
    receivedBy key (run s as).2 = emittedEvents s.userId as := by
  induction as generalizing s with
  | nil => rfl
  | cons a rest ih =>
      obtain ⟨e, he⟩ := Option.isSome_iff_exists.mp
        (hemits a (List.mem_cons_self a rest))
      have hstep := step_emit s a e he
      rw [hconn, Bool.and_true] at hstep
      have hkey : receivedBy key (step s a).2 = [e] := by
        cases hs : s.hasSocket <;> rw [hs] at hstep
        · rw [hstep, if_neg (by simp)]
          exact receivedBy_notify s e key o hmem hnodup
        · rw [hstep, if_pos rfl]
          show receivedBy key (Effects.app (notify s e) ⟨[], [wireOf e], []⟩) = [e]
          rw [receivedBy_app, receivedBy_notify s e key o hmem hnodup]
          rfl
      have hobs : (step s a).1.observers = s.observers := by
        cases hs : s.hasSocket <;> rw [hs] at hstep <;> simp [hstep]
      have hconn' : (step s a).1.isConnected = true := by
        cases hs : s.hasSocket <;> rw [hs] at hstep <;> simp [hstep, hconn]
      have huid : (step s a).1.userId = s.userId := step_userId s a
      have hrest : receivedBy key (run (step s a).1 rest).2
          = emittedEvents s.userId rest := by
        have := ih (step s a).1 hconn'
          (by rw [huid]; exact fun b hb => hemits b (List.mem_cons_of_mem a hb))
          (by rw [hobs]; exact hmem) (by rw [hobs]; exact hnodup)
        rwa [huid] at this
      show receivedBy key (Effects.app (step s a).2 (run (step s a).1 rest).2)
          = emittedEvents s.userId (a :: rest)
      rw [receivedBy_app, hkey, hrest]
      simp [emittedEvents, List.filterMap_cons, he]

/-- Claim C2, witness: two publishes while connected, with two registered
observers one of which always fails; observer `A` receives exactly the two
events in order. -/
theorem connected_publish_exact_once_in_order_witness :
    (baseState true []).isConnected = true ∧
    (∀ a ∈ [Action.emitCreated (taskW 1) 1, Action.emitCreated (taskW 2) 2],
      (localEventOf (baseState true []).userId a).isSome) ∧
    ("A", okObs) ∈ (baseState true []).observers ∧
    ((baseState true []).observers.map Prod.fst).Nodup ∧
    receivedBy "A" (run (baseState true [])
        [Action.emitCreated (taskW 1) 1, Action.emitCreated (taskW 2) 2]).2
      = emittedEvents (baseState true []).userId
        [Action.emitCreated (taskW 1) 1, Action.emitCreated (taskW 2) 2] :=
  ⟨rfl, by intro a ha; fin_cases ha <;> rfl, List.Mem.head _, by decide,
    connected_publish_exact_once_in_order (baseState true [])
      [Action.emitCreated (taskW 1) 1, Action.emitCreated (taskW 2) 2] "A" okObs
      rfl (by intro a ha; fin_cases ha <;> rfl) (List.Mem.head _) (by decide)⟩

/-! ### Claim C3 -/

/-- Claim C3: for every state (so for every set of registered subscribers, in
particular sets containing subscribers whose callbacks fail) and every
published event, each registered subscriber's callback is invoked with the
event — a failing callback never prevents the others' deliveries — and the
publish path reports no failure (its error output is empty).  Repeated
publishes are the `run` closure of this single-publish fact (see claim C2's
theorem, which needs no assumption on callback outcomes). -/
theorem publish_isolated_from_subscriber_failure (s : ObsState) (e : TaskEvent) :
    (∀ key o, (key, o) ∈ s.observers →
      Delivery.mk key e (o.update e) ∈ (broadcastEvent s e).2.deliveries) ∧
    (broadcastEvent s e).2.errors = [] := by
  constructor
  · intro key o hmem
    have hbase : Delivery.mk key e (o.update e) ∈ (notify s e).deliveries := by
      simpa [notify] using List.mem_map_of_mem
        (fun p => Delivery.mk p.1 e (p.2.update e)) hmem
    unfold broadcastEvent
    split
    · simpa [Effects.app] using hbase
    · exact hbase
  · unfold broadcastEvent
    split
    · simp [Effects.app, notify]
    · simp [notify]

/-- Claim C3, witness: at a concrete state holding a failing observer `B`,
publishing still invokes both `A` (successfully) and `B`, and the publish
reports no error. -/
theorem publish_isolated_from_subscriber_failure_witness :
    ("A", okObs) ∈ (baseState true []).observers ∧
    Delivery.mk "A" (evW 1) (okObs.update (evW 1))
      ∈ (broadcastEvent (baseState true []) (evW 1)).2.deliveries ∧
    (broadcastEvent (baseState true []) (evW 1)).2.errors = [] :=
  ⟨List.Mem.head _,
    (publish_isolated_from_subscriber_failure (baseState true []) (evW 1)).1
      "A" okObs (List.Mem.head _),
    (publish_isolated_from_subscriber_failure (baseState true []) (evW 1)).2⟩

/-! ### Claim C4 -/

/-- Claim C4 is a code bug: `notify` awaits `Promise.allSettled`, which
resolves regardless of individual rejections, so the `catch` branch that
would call `handleError` (and hence the configured `onError` sink) is
unreachable.  Evaluating the code at a failing input: observer `B`'s
callback fails on the event, the failure outcome is recorded in the
dispatch, and yet the error-sink output of `notify` (and of the whole
publish) is empty — the subscriber error is swallowed, never reported. -/
theorem subscriber_error_never_reported :
    failObs.update (evW 1) = Outcome.err "boom" ∧
    Delivery.mk "B" (evW 1) (Outcome.err "boom")
      ∈ (notify (baseState true []) (evW 1)).deliveries ∧
    (notify (baseState true []) (evW 1)).errors = [] ∧
    (broadcastEvent (baseState true []) (evW 1)).2.errors = [] := by
  refine ⟨rfl, by decide, rfl, by decide⟩

/-! ### Claim C5 -/

/-- Claim C5, counterexample.  The claim says N events published while
Disconnected leave min(N, backlogCapacity) backlog entries with the oldest
dropped — in particular, capacity 3 and 5 publishes should leave events
3, 4, 5.  The code has no capacity at all: publishing 5 events while
disconnected leaves all 5 in the queue, the first two included, so the
backlog holds 5 entries, not 3. -/
theorem backlog_unbounded_cex :
    (run (baseState false [])
      [Action.emitCreated (taskW 1) 1, Action.emitCreated (taskW 2) 2,
       Action.emitCreated (taskW 3) 3, Action.emitCreated (taskW 4) 4,
       Action.emitCreated (taskW 5) 5]).1.eventQueue
      = [evW 1, evW 2, evW 3, evW 4, evW 5] := by decide

/-- Claim C5 as amended: the backlog is unbounded — publishing N events while
Disconnected appends all N of them to the queue in publish order, dropping
nothing (there is no capacity configuration and no overflow policy). -/
theorem backlog_disconnected_keeps_all (s : ObsState) (as : List Action)
    (hdisc : s.isConnected = false)
    (hemits : ∀ a ∈ as, (localEventOf s.userId a).isSome) :
    (run s as).1.eventQueue = s.eventQueue ++ emittedEvents s.userId as := by
  induction as generalizing s with
  | nil => simp [run, emittedEvents]
  | cons a rest ih =>
      obtain ⟨e, he⟩ := Option.isSome_iff_exists.mp
        (hemits a (List.mem_cons_self a rest))
      have hstep := step_emit s a e he
      rw [hdisc, Bool.and_false] at hstep
      rw [if_neg (by simp)] at hstep
      have hconn' : (step s a).1.isConnected = false := by
        rw [hstep]
      have huid : (step s a).1.userId = s.userId := step_userId s a
      have hrest := ih (step s a).1 hconn'
        (by rw [huid]; exact fun b hb => hemits b (List.mem_cons_of_mem a hb))
      show (run (step s a).1 rest).1.eventQueue = _
      rw [hrest, huid, hstep]
      show (s.eventQueue ++ [e]) ++ emittedEvents s.userId rest = _
      rw [List.append_assoc]
      simp [emittedEvents, List.filterMap_cons, he]

/-- Claim C5, witness for the amended theorem: the five disconnected
publishes of the counterexample leave exactly those five events queued. -/
theorem backlog_disconnected_keeps_all_witness :
    (baseState false []).isConnected = false ∧
    (∀ a ∈ [Action.emitCreated (taskW 1) 1, Action.emitCreated (taskW 2) 2,
       Action.emitCreated (taskW 3) 3, Action.emitCreated (taskW 4) 4,
       Action.emitCreated (taskW 5) 5],
      (localEventOf (baseState false []).userId a).isSome) ∧
    (run (baseState false [])
      [Action.emitCreated (taskW 1) 1, Action.emitCreated (taskW 2) 2,
       Action.emitCreated (taskW 3) 3, Action.emitCreated (taskW 4) 4,
       Action.emitCreated (taskW 5) 5]).1.eventQueue
      = (baseState false []).eventQueue ++ emittedEvents (baseState false []).userId
        [Action.emitCreated (taskW 1) 1, Action.emitCreated (taskW 2) 2,
         Action.emitCreated (taskW 3) 3, Action.emitCreated (taskW 4) 4,
         Action.emitCreated (taskW 5) 5] :=
  ⟨rfl, by intro a ha; fin_cases ha <;> rfl,
    backlog_disconnected_keeps_all (baseState false []) _ rfl
      (by intro a ha; fin_cases ha <;> rfl)⟩

/-! ### Claim C6 -/

/-- Claim C6, counterexample.  The claim says every malformed inbound message
is dropped and reported via the error sink, with no event delivered.  For an
object-shaped message with every field missing, `handleTaskEvent` performs no
validation: it delivers an event built from the raw `undefined` fields to the
observers (deliveries are nonempty) and reports nothing to the error sink. -/
theorem malformed_inbound_not_dropped_cex :
    (handleTaskEvent (baseState true []) (some badMsg)).2.deliveries ≠ [] ∧
    (handleTaskEvent (baseState true []) (some badMsg)).2.errors = [] := by
  refine ⟨by decide, by decide⟩

/-- Claim C6 as amended: the bridge never crashes on malformed input, and a
`null`/`undefined` message body is caught and reported via the error sink
with nothing delivered and the state unchanged; but an object-shaped inbound
message — malformed or not — is not dropped: the event built from its raw
fields is delivered to every observer, and subsequent messages (such as a
following well-formed one) are still delivered correctly in order. -/
theorem malformed_inbound_behaviour (s : ObsState) (m m' : RawMsg)
    (key : String) (o : Observer) (hconn : s.isConnected = true)
    (hmem : (key, o) ∈ s.observers)
    (hnodup : (s.observers.map Prod.fst).Nodup) :
    handleTaskEvent s none = (s, ⟨[], [], ["Task event handling failed"]⟩) ∧
    receivedBy key (run s
        [Action.inboundTask (some m), Action.inboundTask (some m')]).2
      = [rawEvent m, rawEvent m'] ∧
    (run s [Action.inboundTask (some m), Action.inboundTask (some m')]).2.sends
      = [] := by
  have h1 : step s (Action.inboundTask (some m)) = (s, notify s (rawEvent m)) := by
    simp [step, handleTaskEvent, hconn]
  have h2 : step s (Action.inboundTask (some m')) = (s, notify s (rawEvent m')) := by
    simp [step, handleTaskEvent, hconn]
  have hrun : run s [Action.inboundTask (some m), Action.inboundTask (some m')]
      = (s, Effects.app (notify s (rawEvent m))
          (Effects.app (notify s (rawEvent m')) Effects.empty)) := by
    simp [run, h1, h2]
  refine ⟨rfl, ?_, ?_⟩
  · rw [hrun]
    show receivedBy key (Effects.app (notify s (rawEvent m))
      (Effects.app (notify s (rawEvent m')) Effects.empty)) = _
    rw [receivedBy_app, receivedBy_app,
      receivedBy_notify s (rawEvent m) key o hmem hnodup,
      receivedBy_notify s (rawEvent m') key o hmem hnodup]
    rfl
  · rw [hrun]
    rfl

/-- Claim C6, witness: a maximally malformed object message followed by a
well-formed one; observer `A` receives the junk event and then the valid
event, and nothing is sent outward. -/
theorem malformed_inbound_behaviour_witness :
    (baseState true []).isConnected = true ∧
    ("A", okObs) ∈ (baseState true []).observers ∧
    ((baseState true []).observers.map Prod.fst).Nodup ∧
    (handleTaskEvent (baseState true []) none
        = ((baseState true []), ⟨[], [], ["Task event handling failed"]⟩) ∧
     receivedBy "A" (run (baseState true [])
        [Action.inboundTask (some badMsg), Action.inboundTask (some goodMsg)]).2
       = [rawEvent badMsg, rawEvent goodMsg] ∧
     (run (baseState true [])
        [Action.inboundTask (some badMsg), Action.inboundTask (some goodMsg)]).2.sends
       = []) :=
  ⟨rfl, List.Mem.head _, by decide,
    malformed_inbound_behaviour (baseState true []) badMsg goodMsg "A" okObs
      rfl (List.Mem.head _) (by decide)⟩

/-! ### Claim C7 -/

/-- Claim C7, counterexample.  The connection state of the code is the
Boolean `isConnected`; there is no Connecting value at all.  At the concrete
disconnected state, a single socket connect step moves the state directly
from Disconnected (`isConnected = false`) to Connected (`isConnected =
true`), so a fresh connect attempt does go from Disconnected straight to
Connected, never passing through any Connecting state. -/
theorem connect_skips_connecting_cex :
    (baseState false []).isConnected = false ∧
    (step (baseState false []) Action.sockConnect).1.isConnected = true := by
  refine ⟨rfl, by decide⟩

/-- Claim C7 as amended: the connection state is two-valued.  For every state
and action, the resulting `isConnected` flag is `true` after a socket
connect, `false` after a socket disconnect or an explicit `disconnect()`
call, and unchanged by every other operation; no third (Connecting) state
exists. -/
theorem connection_state_two_valued (s : ObsState) (a : Action) :
    (step s a).1.isConnected =
      match a with
      | Action.sockConnect => true
      | Action.sockDisconnect => false
      | Action.close => false
      | _ => s.isConnected := by
  cases a <;>
    simp only [step, onConnect, onDisconnect, handleTaskEvent,
      handlePresenceUpdate, emitTaskCreated, emitTaskUpdated, emitTaskDeleted,
      broadcastEvent, processEventQueue, updatePresence, addObserver,
      removeObserver, disconnectAll] <;>
    first
      | rfl
      | (split <;> rfl)
      | (rename_i m; cases m <;> simp only [] <;> first | rfl | (split <;> rfl))

/-! ### Claim C8 -/

lemma step_sends (s : ObsState) (a : Action) :
    (step s a).2.sends = [] ∨
    (∃ e, localEventOf s.userId a = some e ∧ (step s a).2.sends = [wireOf e]) ∨
    (∃ p, (step s a).2.sends = [SendMsg.presenceMsg p]) := by
  cases a with
  | sockConnect =>
      exact Or.inl (processLoop_connected { s with isConnected := true } rfl
        s.eventQueue).2.1
  | sockDisconnect => exact Or.inl rfl
  | inboundTask m =>
      left
      cases m with
      | none => rfl
      | some m =>
          simp only [step, handleTaskEvent]
          split <;> rfl
  | inboundPresence p now =>
      left
      simp only [step, handlePresenceUpdate, handleTaskEvent]
      split <;> rfl
  | emitCreated t now =>
      by_cases h : (s.hasSocket && s.isConnected) = true
      · refine Or.inr (Or.inl ⟨_, rfl, ?_⟩)
        rw [step_emit s (Action.emitCreated t now) _ rfl, if_pos h]
        rfl
      · left
        rw [step_emit s (Action.emitCreated t now) _ rfl, if_neg h]
        rfl
  | emitUpdated t now =>
      by_cases h : (s.hasSocket && s.isConnected) = true
      · refine Or.inr (Or.inl ⟨_, rfl, ?_⟩)
        rw [step_emit s (Action.emitUpdated t now) _ rfl, if_pos h]
        rfl
      · left
        rw [step_emit s (Action.emitUpdated t now) _ rfl, if_neg h]
        rfl
  | emitDeleted tid now =>
      by_cases h : (s.hasSocket && s.isConnected) = true
      · refine Or.inr (Or.inl ⟨_, rfl, ?_⟩)
        rw [step_emit s (Action.emitDeleted tid now) _ rfl, if_pos h]
        rfl
      · left
        rw [step_emit s (Action.emitDeleted tid now) _ rfl, if_neg h]
        rfl
  | addObs o id => exact Or.inl rfl
  | removeObs tag => exact Or.inl rfl
  | presencePing tid now =>
      by_cases h : (s.hasSocket && s.isConnected) = true
      · refine Or.inr (Or.inr
          ⟨⟨s.userId, true, tid, DateVal.fromTick now⟩, ?_⟩)
        simp only [step, updatePresence, h, if_true]
      · left
        simp only [step, updatePresence]
        rw [if_neg h]
        rfl
  | close => exact Or.inl rfl

/-- Claim C8: every `task:event` message ever sent on the socket during any
run originates from a local emit call — it is the wire form of an event
constructed by `emitTaskCreated`/`emitTaskUpdated`/`emitTaskDeleted` in that
run.  Inbound messages (decoded remote events) are handed to the local
delivery path only: neither their handling nor the backlog drain ever sends
anything outward, so no echo loop can occur. -/
theorem inbound_never_forwarded_outward (s : ObsState) (as : List Action)
    (t : Option String) (tid : Option String) (u : Option String)
    (ts : DateVal) (pl : Option Payload)
    (hmem : SendMsg.taskEvent t tid u ts pl ∈ (run s as).2.sends) :
    ∃ a ∈ as, ∃ e, localEventOf s.userId a = some e ∧
      SendMsg.taskEvent t tid u ts pl = wireOf e := by
  induction as generalizing s with
  | nil => cases hmem
  | cons a rest ih =>
      replace hmem : SendMsg.taskEvent t tid u ts pl ∈
          (step s a).2.sends ++ (run (step s a).1 rest).2.sends := hmem
      rcases List.mem_append.mp hmem with hl | hr
      · rcases step_sends s a with h0 | ⟨e, he, hs⟩ | ⟨p, hs⟩
        · rw [h0] at hl; cases hl
        · rw [hs] at hl
          exact ⟨a, List.mem_cons_self a rest, e, he, List.mem_singleton.mp hl⟩
        · rw [hs] at hl
          simp at hl
      · obtain ⟨a', ha', e, he, heq⟩ := ih (step s a).1 hr
        refine ⟨a', List.mem_cons_of_mem a ha', e, ?_, heq⟩
        rwa [step_userId s a] at he

/-- Claim C8, witness: the one send of a connected local publish is traced
back to that emit action. -/
theorem inbound_never_forwarded_outward_witness :
    SendMsg.taskEvent (some "TASK_CREATED") (some (taskW 1).id) (some "user1")
        (DateVal.fromTick 1) (some (Payload.ofTask (taskW 1)))
      ∈ (run (baseState true []) [Action.emitCreated (taskW 1) 1]).2.sends ∧
    ∃ a ∈ [Action.emitCreated (taskW 1) 1], ∃ e,
      localEventOf (baseState true []).userId a = some e ∧
      SendMsg.taskEvent (some "TASK_CREATED") (some (taskW 1).id) (some "user1")
        (DateVal.fromTick 1) (some (Payload.ofTask (taskW 1))) = wireOf e :=
  ⟨by decide,
    inbound_never_forwarded_outward (baseState true [])
      [Action.emitCreated (taskW 1) 1] (some "TASK_CREATED") (some (taskW 1).id)
      (some "user1") (DateVal.fromTick 1) (some (Payload.ofTask (taskW 1)))
      (by decide)⟩

/-! ### Claim C9 -/

/-- Claim C9, counterexample.  The claim requires that every transition of
the transport to Disconnected makes the presence tracker emit exactly one
`PresenceChanged` event with `online = false` through the dispatch engine.
At a concrete connected state with two registered observers, the disconnect
transition delivers nothing at all (zero events of any kind, in particular
zero presence events), sends nothing and reports nothing. -/
theorem disconnect_emits_no_presence_cex :
    (step (baseState true []) Action.sockDisconnect).2.deliveries = [] ∧
    (step (baseState true []) Action.sockDisconnect).2.sends = [] ∧
    (step (baseState true []) Action.sockDisconnect).2.errors = [] := by
  refine ⟨by decide, by decide, by decide⟩

/-- Claim C9 as amended: the socket disconnect handler only clears the
connected flag; it emits no event whatsoever (presence events arise solely
from inbound `user:presence` messages, handled elsewhere). -/
theorem disconnect_only_clears_flag (s : ObsState) :
    step s Action.sockDisconnect = ({ s with isConnected := false }, Effects.empty) :=
  rfl

/-! ### Claim C10 -/

/-- Claim C10: an event published locally while disconnected is delivered to
the local observers immediately at publish time and is also appended to the
event queue; when the connection is then established, the queue drain
delivers the same event to the same observers a second time — each observer
receives it twice. -/
theorem offline_publish_delivered_twice (s : ObsState) (t : Task) (now : Nat)
    (key : String) (o : Observer)
    (hdisc : s.isConnected = false) (hq : s.eventQueue = [])
    (hmem : (key, o) ∈ s.observers)
    (hnodup : (s.observers.map Prod.fst).Nodup) :
    receivedBy key (run s [Action.emitCreated t now, Action.sockConnect]).2
      = [⟨some "TASK_CREATED", some t.id, some s.userId, DateVal.fromTick now,
          some (Payload.ofTask t)⟩,
         ⟨some "TASK_CREATED", some t.id, some s.userId, DateVal.fromTick now,
          some (Payload.ofTask t)⟩] := by
  have hstep := step_emit s (Action.emitCreated t now) _ rfl
  rw [hdisc, Bool.and_false] at hstep
  rw [if_neg (by simp)] at hstep
  show receivedBy key (Effects.app (step s (Action.emitCreated t now)).2
    (Effects.app (step (step s (Action.emitCreated t now)).1 Action.sockConnect).2
      Effects.empty)) = _
  rw [hstep]
  show receivedBy key (Effects.app
    (notify s ⟨some "TASK_CREATED", some t.id, some s.userId,
      DateVal.fromTick now, some (Payload.ofTask t)⟩)
    (Effects.app (step { s with eventQueue := s.eventQueue ++
        [⟨some "TASK_CREATED", some t.id, some s.userId, DateVal.fromTick now,
          some (Payload.ofTask t)⟩] } Action.sockConnect).2 Effects.empty)) = _
  rw [receivedBy_app, receivedBy_app, receivedBy_notify s _ key o hmem hnodup]
  have hrecv2 := processLoop_received
    { s with eventQueue := s.eventQueue ++
        [⟨some "TASK_CREATED", some t.id, some s.userId, DateVal.fromTick now,
          some (Payload.ofTask t)⟩], isConnected := true } rfl key o hmem hnodup
    (s.eventQueue ++
      [⟨some "TASK_CREATED", some t.id, some s.userId, DateVal.fromTick now,
        some (Payload.ofTask t)⟩])
  rw [show (step { s with eventQueue := s.eventQueue ++
        [⟨some "TASK_CREATED", some t.id, some s.userId, DateVal.fromTick now,
          some (Payload.ofTask t)⟩] } Action.sockConnect).2
      = (processLoop { s with eventQueue := s.eventQueue ++
          [⟨some "TASK_CREATED", some t.id, some s.userId, DateVal.fromTick now,
            some (Payload.ofTask t)⟩], isConnected := true }
          (s.eventQueue ++
            [⟨some "TASK_CREATED", some t.id, some s.userId, DateVal.fromTick now,
              some (Payload.ofTask t)⟩])).2 from rfl, hrecv2, hq]
  rfl

/-- Claim C10, witness at a concrete disconnected state: observer `A`
receives the published event twice — once at publish time, once when the
socket connects and the queue is processed. -/
theorem offline_publish_delivered_twice_witness :
    (baseState false []).isConnected = false ∧
    (baseState false []).eventQueue = [] ∧
    ("A", okObs) ∈ (baseState false []).observers ∧
    ((baseState false []).observers.map Prod.fst).Nodup ∧
    receivedBy "A" (run (baseState false [])
        [Action.emitCreated (taskW 7) 7, Action.sockConnect]).2
      = [⟨some "TASK_CREATED", some (taskW 7).id, some (baseState false []).userId,
          DateVal.fromTick 7, some (Payload.ofTask (taskW 7))⟩,
         ⟨some "TASK_CREATED", some (taskW 7).id, some (baseState false []).userId,
          DateVal.fromTick 7, some (Payload.ofTask (taskW 7))⟩] :=
  ⟨rfl, rfl, List.Mem.head _, by decide,
    offline_publish_delivered_twice (baseState false []) (taskW 7) 7 "A" okObs
      rfl rfl (List.Mem.head _) (by decide)⟩

end TaskFlow
